import Mathlib

/-!
Verification development for the `dca` Kraken trading client
(`kraken.go`, `error.go`, and the richer `KrakenProvider` variant).

The Go code is shallow-embedded: the pure core of each Go function (everything
after the HTTP round trip has produced a decoded response, plus the pure
request-signing pipeline) becomes a Lean function over explicit inputs.
Machine floats are idealized as exact rationals `ℚ` (the numeric claims
checked here are about the algebra of the conversion, not bit-level IEEE
behaviour); Go errors become an explicit error tree so that wrapping
(`fmt.Errorf` with `%w`), flattening (`%v`) and `errors.Is` are faithfully
distinguishable; Go runtime panics (out-of-range slice indexing) are an
explicit outcome constructor.
-/

namespace DCA

/-! ## Go error model (`error.go`)

Go errors are modelled as a tree.  The two sentinel errors declared in
`error.go` (`ErrOrderToSmall = errors.New("order is too small")`,
`ErrInvalidAuth = errors.New("invalid auth")`) are dedicated constructors so
that identity testing (`errors.Is`) is meaningful; `new` is a fresh
`errors.New` / `fmt.Errorf`-without-`%w` error (identity-free in this model:
the only `errors.Is` targets the code ever cares about are the two
sentinels, which are constructor-distinct); `wrap` is
`fmt.Errorf("<label>: %w", inner)`. -/
inductive GoError where
  | errOrderToSmall
  | errInvalidAuth
  | new (msg : String)
  | wrap (label : String) (inner : GoError)
deriving DecidableEq, Repr

/-- The `Error()` string of a Go error: sentinels carry their
`errors.New` message, `fmt.Errorf("%s: %w", label, e)` renders as
`label ++ ": " ++ e.Error()`. -/
def GoError.message : GoError → String
  | .errOrderToSmall => "order is too small"
  | .errInvalidAuth => "invalid auth"
  | .new m => m
  | .wrap label inner => label ++ ": " ++ inner.message

/-- Go `errors.Is(e, target)` for sentinel targets: direct identity, else
walk the `Unwrap` chain (only `wrap` nodes unwrap). -/
def GoError.is (e target : GoError) : Bool :=
  e == target ||
    match e with
    | .wrap _ inner => inner.is target
    | _ => false

/-- Go `WrapErr(&err, label)` (`error.go`): when `err` is non-nil it becomes
`fmt.Errorf("%s: %w", label, err)`; a nil error is left alone. -/
def WrapErr (label : String) : Option GoError → Option GoError
  | none => none
  | some e => some (.wrap label e)

/-- Outcome of a Go function returning `(value, error)` that may also panic:
`ret v e` is a normal return of value `v` and error `e` (`none` = nil),
`panicked` is a runtime panic (here: out-of-range slice indexing). -/
inductive GoExec (α : Type) where
  | ret (val : α) (err : Option GoError)
  | panicked (msg : String)
deriving DecidableEq, Repr

/-- Effect of `defer WrapErr(&err, label)` on a function outcome: the
deferred wrap rewrites the named error return; a panic keeps propagating. -/
def deferWrap (label : String) : GoExec α → GoExec α
  | .ret v e => .ret v (WrapErr label e)
  | .panicked m => .panicked m

/-- True exactly when the outcome is a normal return carrying a non-nil
error. -/
def GoExec.isError : GoExec α → Bool
  | .ret _ (some _) => true
  | _ => false

/-! ## `toError` — the provider error classifier (`KrakenHTTPClient.toError`
/ `KrakenProvider.toError`) -/

/-- Embeds `toError`: exact string comparison against the two known provider
messages, any other message becomes a fresh opaque error. -/
def toError (message : String) : GoError :=
  if message == "EGeneral:Invalid arguments:volume minimum not met" then
    .errOrderToSmall
  else if message == "EAPI:Invalid key" then
    .errInvalidAuth
  else
    .new message

/-! ## `strconv.ParseFloat`, idealized

The numeric strings the code parses are ordinary decimal numerals; they are
modelled as exact rationals (no IEEE rounding).  The accepted grammar
mirrors `strconv.ParseFloat` for plain decimals: optional sign, digits with
at most one dot (at least one digit overall), optional `e`/`E` exponent with
optional sign and at least one digit, nothing else.  (`Inf`/`NaN`/hex-float
forms and digit-separating underscores are never produced by the provider
and are not modelled.) -/

/-- Longest leading run of decimal digits, as digit values, plus the rest. -/
def takeDigits : List Char → List ℕ × List Char
  | c :: cs =>
    if c.isDigit then
      let (ds, rest) := takeDigits cs
      ((c.toNat - 48) :: ds, rest)
    else ([], c :: cs)
  | [] => ([], [])

/-- Value of a big-endian digit list. -/
def digitsToNat (ds : List ℕ) : ℕ := ds.foldl (fun a d => a * 10 + d) 0

/-- Parses the tail after the mantissa: either empty (exponent 0) or
`e`/`E`, optional sign, one-or-more digits, then end of string. -/
def parseExpTail : List Char → Option ℤ
  | [] => some 0
  | c :: rest =>
    if c == 'e' || c == 'E' then
      let (eneg, rest2) : Bool × List Char :=
        match rest with
        | '-' :: r => (true, r)
        | '+' :: r => (false, r)
        | _ => (false, rest)
      let (eds, rest3) := takeDigits rest2
      if eds.isEmpty || !rest3.isEmpty then none
      else some (if eneg then -(digitsToNat eds : ℤ) else (digitsToNat eds : ℤ))
    else none

/-- Embeds `strconv.ParseFloat(s, 64)` as an exact rational; `none` is the
parse failure (Go: a non-nil error and value 0). -/
def parseGoFloat (s : String) : Option ℚ :=
  let cs := s.toList
  let (neg, cs1) : Bool × List Char :=
    match cs with
    | '-' :: rest => (true, rest)
    | '+' :: rest => (false, rest)
    | _ => (false, cs)
  let (ipart, cs2) := takeDigits cs1
  let (fpart, cs3) : List ℕ × List Char :=
    match cs2 with
    | '.' :: rest => takeDigits rest
    | _ => ([], cs2)
  if ipart.isEmpty && fpart.isEmpty then none
  else
    match parseExpTail cs3 with
    | none => none
    | some e =>
      let mantissa : ℚ :=
        (digitsToNat ipart : ℚ) + (digitsToNat fpart : ℚ) / 10 ^ fpart.length
      let signed := if neg then -mantissa else mantissa
      some (signed * 10 ^ e)

/-- The error `strconv.ParseFloat` attaches to a failed parse. -/
def parseFloatErr (s : String) : GoError :=
  .new ("strconv.ParseFloat: parsing \"" ++ s ++ "\": invalid syntax")

/-! ## Nonce generation (`NewKrakenHTTPClient` / `NewKrakenProvider`)

Both constructors set the field with
`GenerateNonce: time.Now().UnixNano`.  In Go this is a *method value*:
the receiver expression `time.Now()` is evaluated once, when the composite
literal is built, and the stored `func() int64` is bound to that fixed
`time.Time`.  Consequently every later call returns the nanosecond reading
taken at construction.  The embedding makes the construction-time reading
an explicit parameter and indexes calls by position. -/

/-- The stored nonce generator of a client constructed when the clock read
`constructionUnixNano`; the argument is the call index on that instance. -/
def GenerateNonce (constructionUnixNano : ℤ) : ℕ → ℤ :=
  fun _ => constructionUnixNano

/-! ## Ticker fetch and volume computation
(`KrakenHTTPClient.FetchBuyVolume` / `KrakenProvider.fetchBuyVolume`;
the two bodies are identical apart from the context label passed to the
deferred `WrapErr`, for which the provider variant label `"fetchBuyVolume"` is
used)

The HTTP round trip and JSON decode are external I/O; the embedding starts
from the decoded response.  Of the decoded ticker struct only the ask-price
array `result.XXBTZUSD.a` is ever read; the other decoded fields
(`b c v p t l h o`) are dead and omitted.  The Go `error` field is `[]any`
and its first element is type-asserted to `string`; the model takes the
messages as strings directly. -/

structure TickerResponse where
  error : List String
  a : List String
deriving DecidableEq, Repr

/-- Body of `fetchBuyVolume` after JSON decoding, without the deferred
wrap.  Branches, in source order: non-empty `error` list fails with
`fmt.Errorf("failed to fetch buy volume: %w", errors.New(error[0]))`
(note: *not* routed through `toError`); then the ask price is read by the
unguarded index `response.Result.Xxbtzusd.A[0]`, which panics when the
array is empty; then `strconv.ParseFloat`; then
`volume = ((1/quote)/100) * float64(amountInCents)`. -/
def fetchBuyVolumeBody (amountInCents : ℤ) (response : TickerResponse) :
    GoExec ℚ :=
  match response.error with
  | msg :: _ =>
    .ret 0 (some (.wrap "failed to fetch buy volume" (.new msg)))
  | [] =>
    match response.a with
    | [] => .panicked "runtime error: index out of range [0] with length 0"
    | a0 :: _ =>
      match parseGoFloat a0 with
      | none => .ret 0 (some (.wrap "failed to parse quote" (parseFloatErr a0)))
      | some quote =>
        let base : ℚ := 1
        let dollarExchangeRate := base / quote
        let centsExchangeRate := dollarExchangeRate / 100
        .ret (centsExchangeRate * (amountInCents : ℚ)) none

/-- `fetchBuyVolume` with its `defer WrapErr(&err, "fetchBuyVolume")`. -/
def fetchBuyVolume (amountInCents : ℤ) (response : TickerResponse) :
    GoExec ℚ :=
  deferWrap "fetchBuyVolume" (fetchBuyVolumeBody amountInCents response)

/-! ## Order placement (`KrakenHTTPClient.PlaceOrder` /
`KrakenProvider.placeOrder`)

The request-construction half (form params, nonce, signature, headers) is
embedded separately as `generateSignature`; the response-handling half is
below, taking the decoded add-order response.  Only `result.txid` and
`result.descr.order` are read from the result. -/

structure AddOrderResponse where
  error : List String
  txid : List String
  descrOrder : String
deriving DecidableEq, Repr

/-- Body of `placeOrder` response handling, without the deferred wrap.
A non-empty `error` list fails with
`fmt.Errorf("failed to place order: %v", toError(error[0]))` — `%v`, so
the classified error is flattened into the message string rather than
wrapped; the success branch reads the unguarded index
`response.Result.TransactionID[0]`. -/
def placeOrderBody (response : AddOrderResponse) :
    GoExec (String × String) :=
  match response.error with
  | msg :: _ =>
    .ret ("", "")
      (some (.new ("failed to place order: " ++ (toError msg).message)))
  | [] =>
    match response.txid with
    | [] => .panicked "runtime error: index out of range [0] with length 0"
    | t0 :: _ => .ret (t0, response.descrOrder) none

/-- `placeOrder` with its deferred wrap (`"placeOrder"` in the provider
variant; `"KrakenHTTPClient.PlaceOrder"` differs only in the label).  The
`volume` argument only feeds the outgoing form body, not the response
handling, and is kept for signature fidelity. -/
def placeOrder (volume : ℚ) (response : AddOrderResponse) :
    GoExec (String × String) :=
  let _ := volume
  deferWrap "placeOrder" (placeOrderBody response)

/-! ## Order-info query (`KrakenProvider.queryOrderInfo`)

Only the `vol`, `cost`, `fee`, `price` string fields of a result entry are
ever read; the many other decoded fields (`refid`, `status`, `descr`, …)
are dead and omitted.  The Go result is `map[string]struct{...}`; indexing
a missing key yields the zero value — every string field `""`. -/

structure QueryOrderEntry where
  vol : String
  cost : String
  fee : String
  price : String
deriving DecidableEq, Repr

/-- The zero value of the result-entry struct (missing-key map access). -/
def zeroQueryOrderEntry : QueryOrderEntry := ⟨"", "", "", ""⟩

structure QueryOrdersResponse where
  error : List String
  result : List (String × QueryOrderEntry)
deriving DecidableEq, Repr

/-- The `orderInfo` struct; fields in source order. -/
structure orderInfo where
  volumePurchased : ℚ
  cost : ℚ
  fee : ℚ
  price : ℚ
deriving DecidableEq, Repr

/-- Zero value of `orderInfo` — the named return `oi` before assignment. -/
def zeroOrderInfo : orderInfo := ⟨0, 0, 0, 0⟩

/-- Body of `queryOrderInfo` response handling, without the deferred wrap.
A non-empty `error` list fails with
`fmt.Errorf("failed to query order info: %v", toError(error[0]))` (again
`%v`, flattening).  Otherwise the entry at `transactionID` (zero value if
absent) has `fee`, `cost`, `price`, `vol` parsed in that order, each
failure wrapped with `%w` and returning the partially-assigned `oi`. -/
def queryOrderInfoBody (transactionID : String)
    (response : QueryOrdersResponse) : orderInfo × Option GoError :=
  match response.error with
  | msg :: _ =>
    (zeroOrderInfo,
      some (.new ("failed to query order info: " ++ (toError msg).message)))
  | [] =>
    let entry := (response.result.lookup transactionID).getD zeroQueryOrderEntry
    match parseGoFloat entry.fee with
    | none => (zeroOrderInfo, some (.wrap "failed to parse fee" (parseFloatErr entry.fee)))
    | some fee =>
      let oi1 : orderInfo := { zeroOrderInfo with fee := fee }
      match parseGoFloat entry.cost with
      | none => (oi1, some (.wrap "failed to parse cost" (parseFloatErr entry.cost)))
      | some cost =>
        let oi2 : orderInfo := { oi1 with cost := cost }
        match parseGoFloat entry.price with
        | none => (oi2, some (.wrap "failed to parse price" (parseFloatErr entry.price)))
        | some price =>
          let oi3 : orderInfo := { oi2 with price := price }
          match parseGoFloat entry.vol with
          | none => (oi3, some (.wrap "failed to parse volume" (parseFloatErr entry.vol)))
          | some vol => ({ oi3 with volumePurchased := vol }, none)

/-- `queryOrderInfo` with its `defer WrapErr(&err, "queryOrderInfo")`. -/
def queryOrderInfo (transactionID : String)
    (response : QueryOrdersResponse) : orderInfo × Option GoError :=
  let (oi, err) := queryOrderInfoBody transactionID response
  (oi, WrapErr "queryOrderInfo" err)

/-! ## The full pipeline (`KrakenProvider.ExecuteOrder`)

The three network round trips are external; their decoded responses are the
inputs.  The named return `res` starts at the struct zero value and is
assigned field-by-field exactly as in the source. -/

structure ExecuteOrderResponse where
  amountInCents : ℤ
  transactionID : String
  additionalInfo : String
  requestedVolume : ℚ
  volumePurchased : ℚ
  cost : ℚ
  fee : ℚ
  price : ℚ
deriving DecidableEq, Repr

/-- Zero value of `ExecuteOrderResponse`. -/
def zeroExecuteOrderResponse : ExecuteOrderResponse :=
  ⟨0, "", "", 0, 0, 0, 0, 0⟩

/-- Embeds `ExecuteOrder`: fetch the volume, place the order, query the
settlement info, assembling `res` along the way; any step error aborts
with the fields assigned so far; the deferred
`WrapErr(&err, "KrakenProvider.ExecuteOrder")` labels the error.  No branch
checks the computed volume sign: whatever rational `fetchBuyVolume`
returns is forwarded to `placeOrder`. -/
def ExecuteOrder (amountInCents : ℤ) (ticker : TickerResponse)
    (addOrder : AddOrderResponse) (query : QueryOrdersResponse) :
    GoExec ExecuteOrderResponse :=
  deferWrap "KrakenProvider.ExecuteOrder" <|
    match fetchBuyVolume amountInCents ticker with
    | .panicked m => .panicked m
    | .ret volume (some e) =>
      let _ := volume
      .ret zeroExecuteOrderResponse (some e)
    | .ret volume none =>
      let res1 : ExecuteOrderResponse :=
        { zeroExecuteOrderResponse with
          amountInCents := amountInCents, requestedVolume := volume }
      match placeOrder volume addOrder with
      | .panicked m => .panicked m
      | .ret (txid, info) err =>
        let res2 : ExecuteOrderResponse :=
          { res1 with transactionID := txid, additionalInfo := info }
        match err with
        | some e => .ret res2 (some e)
        | none =>
          let (oi, qerr) := queryOrderInfo txid query
          match qerr with
          | some e => .ret res2 (some e)
          | none =>
            .ret
              { res2 with
                price := oi.price, cost := oi.cost, fee := oi.fee,
                volumePurchased := oi.volumePurchased } none

/-! ## Bytes and words

Bytes are naturals < 256 (an invariant every producer below maintains);
words are naturals reduced mod `2^32` (SHA-256) or `2^64` (SHA-512). -/

/-- Go `[]byte(s)`: the UTF-8 encoding of one character. -/
def charUTF8 (c : Char) : List ℕ :=
  let n := c.toNat
  if n < 0x80 then [n]
  else if n < 0x800 then
    [0xC0 + n / 64, 0x80 + n % 64]
  else if n < 0x10000 then
    [0xE0 + n / 4096, 0x80 + n / 64 % 64, 0x80 + n % 64]
  else
    [0xF0 + n / 262144, 0x80 + n / 4096 % 64, 0x80 + n / 64 % 64,
      0x80 + n % 64]

/-- Go `[]byte(s)` for a whole string. -/
def strBytes (s : String) : List ℕ := (s.toList.map charUTF8).flatten

/-- Big-endian byte rendering of `value` in `nbytes` bytes. -/
def toBE (nbytes value : ℕ) : List ℕ :=
  (List.range nbytes).map (fun i => value / 2 ^ (8 * (nbytes - 1 - i)) % 256)

/-- Splits a list into chunks of `n` (fuel = input length). -/
def chunksGo (n fuel : ℕ) (l : List ℕ) : List (List ℕ) :=
  match fuel with
  | 0 => []
  | fuel + 1 =>
    if l.isEmpty then [] else l.take n :: chunksGo n fuel (l.drop n)

/-- Splits a byte list into chunks of `n` bytes. -/
def chunks (n : ℕ) (l : List ℕ) : List (List ℕ) := chunksGo n l.length l

/-- Big-endian words of `wordBytes` bytes each. -/
def bytesToWords (wordBytes : ℕ) (l : List ℕ) : List ℕ :=
  (chunks wordBytes l).map (fun c => c.foldl (fun a b => a * 256 + b) 0)

/-- SHA padding (FIPS 180-4): append `0x80`, zero-fill so that the length
field fits at the end of a block, append the bit length big-endian in
`lenBytes` bytes.  `blockLen` is 64/8 for SHA-256, 128/16 for SHA-512. -/
def shaPad (blockLen lenBytes : ℕ) (msg : List ℕ) : List ℕ :=
  let l := msg.length
  let zeros := (blockLen - (l + 1 + lenBytes) % blockLen) % blockLen
  msg ++ 0x80 :: List.replicate zeros 0 ++ toBE lenBytes (8 * l)

/-! ### SHA-256 (`crypto/sha256`) -/

/-- Reduce to a 32-bit word. -/
def w32 (x : ℕ) : ℕ := x % 2 ^ 32

/-- Rotate a 32-bit word right by `n`. -/
def rotr32 (n x : ℕ) : ℕ := w32 (x / 2 ^ n + x % 2 ^ n * 2 ^ (32 - n))

/-- SHA-256 Σ₀. -/
def bsig0 (x : ℕ) : ℕ := (rotr32 2 x ^^^ rotr32 13 x) ^^^ rotr32 22 x

/-- SHA-256 Σ₁. -/
def bsig1 (x : ℕ) : ℕ := (rotr32 6 x ^^^ rotr32 11 x) ^^^ rotr32 25 x

/-- SHA-256 σ₀. -/
def ssig0 (x : ℕ) : ℕ := (rotr32 7 x ^^^ rotr32 18 x) ^^^ x / 2 ^ 3

/-- SHA-256 σ₁. -/
def ssig1 (x : ℕ) : ℕ := (rotr32 17 x ^^^ rotr32 19 x) ^^^ x / 2 ^ 10

/-- SHA choice function (width-generic: operands already in range). -/
def shaCh (w x y z : ℕ) : ℕ := (x &&& y) ^^^ ((x ^^^ (2 ^ w - 1)) &&& z)

/-- SHA majority function. -/
def shaMaj (x y z : ℕ) : ℕ := ((x &&& y) ^^^ (x &&& z)) ^^^ (y &&& z)

/-- The 64 SHA-256 round constants. -/
def K256 : List ℕ :=
  [1116352408, 1899447441, 3049323471, 3921009573, 961987163,
   1508970993, 2453635748, 2870763221, 3624381080, 310598401,
   607225278, 1426881987, 1925078388, 2162078206, 2614888103,
   3248222580, 3835390401, 4022224774, 264347078, 604807628,
   770255983, 1249150122, 1555081692, 1996064986, 2554220882,
   2821834349, 2952996808, 3210313671, 3336571891, 3584528711,
   113926993, 338241895, 666307205, 773529912, 1294757372,
   1396182291, 1695183700, 1986661051, 2177026350, 2456956037,
   2730485921, 2820302411, 3259730800, 3345764771, 3516065817,
   3600352804, 4094571909, 275423344, 430227734, 506948616,
   659060556, 883997877, 958139571, 1322822218, 1537002063,
   1747873779, 1955562222, 2024104815, 2227730452, 2361852424,
   2428436474, 2756734187, 3204031479, 3329325298]

/-- SHA-256 initial hash value. -/
def H256 : List ℕ :=
  [1779033703, 3144134277, 1013904242, 2773480762,
   1359893119, 2600822924, 528734635, 1541459225]

/-- SHA-256 message schedule: extends 16 block words to 64. -/
def sha256Schedule (w : List ℕ) : List ℕ :=
  (List.range 64).foldl
    (fun acc i =>
      if i < 16 then acc ++ [w.getD i 0]
      else
        acc ++
          [w32 (ssig1 (acc.getD (i - 2) 0) + acc.getD (i - 7) 0 +
            ssig0 (acc.getD (i - 15) 0) + acc.getD (i - 16) 0)])
    []

/-- One SHA-256 compression over a 16-word block. -/
def sha256Compress (h : List ℕ) (block : List ℕ) : List ℕ :=
  let w := sha256Schedule block
  let out :=
    (List.range 64).foldl
      (fun s i =>
        match s with
        | [a, b, c, d, e, f, g, hh] =>
          let t1 :=
            w32 (hh + bsig1 e + shaCh 32 e f g + K256.getD i 0 + w.getD i 0)
          let t2 := w32 (bsig0 a + shaMaj a b c)
          [w32 (t1 + t2), a, b, c, w32 (d + t1), e, f, g]
        | s => s)
      h
  List.zipWith (fun x y => w32 (x + y)) h out

/-- SHA-256 of a byte list, as 32 bytes. -/
def sha256 (msg : List ℕ) : List ℕ :=
  let blocks := chunks 64 (shaPad 64 8 msg)
  let h := blocks.foldl (fun h b => sha256Compress h (bytesToWords 4 b)) H256
  (h.map (toBE 4)).flatten

/-! ### SHA-512 (`crypto/sha512`) -/

/-- Reduce to a 64-bit word. -/
def w64 (x : ℕ) : ℕ := x % 2 ^ 64

/-- Rotate a 64-bit word right by `n`. -/
def rotr64 (n x : ℕ) : ℕ := w64 (x / 2 ^ n + x % 2 ^ n * 2 ^ (64 - n))

/-- SHA-512 Σ₀. -/
def bsig0_64 (x : ℕ) : ℕ := (rotr64 28 x ^^^ rotr64 34 x) ^^^ rotr64 39 x

/-- SHA-512 Σ₁. -/
def bsig1_64 (x : ℕ) : ℕ := (rotr64 14 x ^^^ rotr64 18 x) ^^^ rotr64 41 x

/-- SHA-512 σ₀. -/
def ssig0_64 (x : ℕ) : ℕ := (rotr64 1 x ^^^ rotr64 8 x) ^^^ x / 2 ^ 7

/-- SHA-512 σ₁. -/
def ssig1_64 (x : ℕ) : ℕ := (rotr64 19 x ^^^ rotr64 61 x) ^^^ x / 2 ^ 6

/-- The 80 SHA-512 round constants. -/
def K512 : List ℕ :=
  [4794697086780616226, 8158064640168781261, 13096744586834688815,
   16840607885511220156, 4131703408338449720, 6480981068601479193,
   10538285296894168987, 12329834152419229976, 15566598209576043074,
   1334009975649890238, 2608012711638119052, 6128411473006802146,
   8268148722764581231, 9286055187155687089, 11230858885718282805,
   13951009754708518548, 16472876342353939154, 17275323862435702243,
   1135362057144423861, 2597628984639134821, 3308224258029322869,
   5365058923640841347, 6679025012923562964, 8573033837759648693,
   10970295158949994411, 12119686244451234320, 12683024718118986047,
   13788192230050041572, 14330467153632333762, 15395433587784984357,
   489312712824947311, 1452737877330783856, 2861767655752347644,
   3322285676063803686, 5560940570517711597, 5996557281743188959,
   7280758554555802590, 8532644243296465576, 9350256976987008742,
   10552545826968843579, 11727347734174303076, 12113106623233404929,
   14000437183269869457, 14369950271660146224, 15101387698204529176,
   15463397548674623760, 17586052441742319658, 1182934255886127544,
   1847814050463011016, 2177327727835720531, 2830643537854262169,
   3796741975233480872, 4115178125766777443, 5681478168544905931,
   6601373596472566643, 7507060721942968483, 8399075790359081724,
   8693463985226723168, 9568029438360202098, 10144078919501101548,
   10430055236837252648, 11840083180663258601, 13761210420658862357,
   14299343276471374635, 14566680578165727644, 15097957966210449927,
   16922976911328602910, 17689382322260857208, 500013540394364858,
   748580250866718886, 1242879168328830382, 1977374033974150939,
   2944078676154940804, 3659926193048069267, 4368137639120453308,
   4836135668995329356, 5532061633213252278, 6448918945643986474,
   6902733635092675308, 7801388544844847127]

/-- SHA-512 initial hash value. -/
def H512 : List ℕ :=
  [7640891576956012808, 13503953896175478587, 4354685564936845355,
   11912009170470909681, 5840696475078001361, 11170449401992604703,
   2270897969802886507, 6620516959819538809]

/-- SHA-512 message schedule: extends 16 block words to 80. -/
def sha512Schedule (w : List ℕ) : List ℕ :=
  (List.range 80).foldl
    (fun acc i =>
      if i < 16 then acc ++ [w.getD i 0]
      else
        acc ++
          [w64 (ssig1_64 (acc.getD (i - 2) 0) + acc.getD (i - 7) 0 +
            ssig0_64 (acc.getD (i - 15) 0) + acc.getD (i - 16) 0)])
    []

/-- One SHA-512 compression over a 16-word block. -/
def sha512Compress (h : List ℕ) (block : List ℕ) : List ℕ :=
  let w := sha512Schedule block
  let out :=
    (List.range 80).foldl
      (fun s i =>
        match s with
        | [a, b, c, d, e, f, g, hh] =>
          let t1 :=
            w64 (hh + bsig1_64 e + shaCh 64 e f g + K512.getD i 0 +
              w.getD i 0)
          let t2 := w64 (bsig0_64 a + shaMaj a b c)
          [w64 (t1 + t2), a, b, c, w64 (d + t1), e, f, g]
        | s => s)
      h
  List.zipWith (fun x y => w64 (x + y)) h out

/-- SHA-512 of a byte list, as 64 bytes. -/
def sha512 (msg : List ℕ) : List ℕ :=
  let blocks := chunks 128 (shaPad 128 16 msg)
  let h := blocks.foldl (fun h b => sha512Compress h (bytesToWords 8 b)) H512
  (h.map (toBE 8)).flatten

/-- HMAC-SHA512 (`crypto/hmac` over `sha512.New`): keys longer than the
128-byte block are hashed, the key is zero-padded to the block, and the
nested hashes use the `0x36`/`0x5c` pads. -/
def hmacSha512 (key msg : List ℕ) : List ℕ :=
  let k0 := if 128 < key.length then sha512 key else key
  let k := k0 ++ List.replicate (128 - k0.length) 0
  let ipad := k.map (fun b => b ^^^ 0x36)
  let opad := k.map (fun b => b ^^^ 0x5c)
  sha512 (opad ++ sha512 (ipad ++ msg))

/-! ### Standard base64 (`encoding/base64` `StdEncoding`) -/

/-- The standard base64 alphabet. -/
def base64Alphabet : List Char :=
  "ABCDEFGHIJKLMNOPQRSTUVWXYZabcdefghijklmnopqrstuvwxyz0123456789+/".toList

/-- Alphabet character at a 6-bit index. -/
def b64Char (i : ℕ) : Char := base64Alphabet.getD i 'A'

/-- Encodes byte triples into character quadruples, padding the final
partial group with `=` (fuel = input length). -/
def base64EncodeGo (fuel : ℕ) (bs : List ℕ) : List Char :=
  match fuel, bs with
  | 0, _ => []
  | _, [] => []
  | _ + 1, [b0] =>
    [b64Char (b0 / 4), b64Char (b0 % 4 * 16), '=', '=']
  | _ + 1, [b0, b1] =>
    [b64Char (b0 / 4), b64Char (b0 % 4 * 16 + b1 / 16),
      b64Char (b1 % 16 * 4), '=']
  | fuel + 1, b0 :: b1 :: b2 :: rest =>
    b64Char (b0 / 4) :: b64Char (b0 % 4 * 16 + b1 / 16) ::
      b64Char (b1 % 16 * 4 + b2 / 64) :: b64Char (b2 % 64) ::
        base64EncodeGo fuel rest

/-- `base64.StdEncoding.EncodeToString`. -/
def base64Encode (bs : List ℕ) : String :=
  String.mk (base64EncodeGo bs.length bs)

/-! ### URL-encoding of form values (`net/url`)

`url.Values` built with `Set` holds one value per key; it is modelled as an
association list.  `Values.Encode` sorts the keys and joins
`QueryEscape(k) + "=" + QueryEscape(v)` with `&`. -/

/-- Characters `url.QueryEscape` leaves unescaped: letters, digits, and
`-`, `_`, `.`, `~`. -/
def queryUnescaped (c : Char) : Bool :=
  c.isAlphanum || c == '-' || c == '_' || c == '.' || c == '~'

/-- Uppercase hex digit. -/
def hexDigit (n : ℕ) : Char := "0123456789ABCDEF".toList.getD n '0'

/-- `url.QueryEscape` for one character: space becomes `+`, unescaped
characters pass through, everything else is percent-encoded per UTF-8
byte. -/
def queryEscapeChar (c : Char) : String :=
  if c == ' ' then "+"
  else if queryUnescaped c then Char.toString c
  else
    String.join
      ((charUTF8 c).map
        (fun b =>
          String.mk ['%', hexDigit (b / 16), hexDigit (b % 16)]))

/-- `url.QueryEscape`. -/
def queryEscape (s : String) : String :=
  String.join (s.toList.map queryEscapeChar)

/-- Insertion into a key-sorted parameter list. -/
def insertParam (kv : String × String) :
    List (String × String) → List (String × String)
  | [] => [kv]
  | x :: xs => if kv.1 < x.1 then kv :: x :: xs else x :: insertParam kv xs

/-- Parameters sorted by key ascending (the order `Values.Encode` emits;
keys here are distinct, so stability is moot). -/
def sortParams (l : List (String × String)) : List (String × String) :=
  l.foldr insertParam []

/-- `url.Values.Encode`: keys sorted, each pair query-escaped, joined
with `&`. -/
def urlValuesEncode (params : List (String × String)) : String :=
  String.intercalate "&"
    ((sortParams params).map
      (fun kv => queryEscape kv.1 ++ "=" ++ queryEscape kv.2))

/-- `strconv.FormatInt(n, 10)`. -/
def formatInt (n : ℤ) : String := toString n

/-! ## Request signing (`generateSignature`, identical in
`KrakenHTTPClient` and `KrakenProvider`) -/

/-- Embeds `generateSignature`: SHA-256 over the decimal nonce concatenated
with the URL-encoded form data, HMAC-SHA512 keyed by the API secret over
the path bytes followed by that digest, base64-encoded. -/
def generateSignature (apiSecretKey path : String)
    (data : List (String × String)) (nonce : ℤ) : String :=
  let hash := sha256 (strBytes (formatInt nonce ++ urlValuesEncode data))
  let mac := hmacSha512 (strBytes apiSecretKey) (strBytes path ++ hash)
  base64Encode mac

/-- The signature as §4.3 of the spec words it, composed from its
three numbered steps:
`digest = SHA256(decimalString(nonce) + urlEncode(formParams))`,
`mac = HMAC-SHA512(key = secretKey, message = bytes(path) ++ digest)`,
`signature = base64Standard(mac)`. -/
def specSignature (secretKey path : String)
    (formParams : List (String × String)) (nonce : ℤ) : String :=
  let digest := sha256 (strBytes (formatInt nonce ++ urlValuesEncode formParams))
  let mac := hmacSha512 (strBytes secretKey) (strBytes path ++ digest)
  base64Encode mac

/-! ## Theorems -/

/-- C1: refuted — the claim says the error returned by order submission
still identifies as the `InvalidAuth` (resp. `OrderTooSmall`) domain error
after all contextual wrapping.  In the code, `placeOrder` (and
`queryOrderInfo`) wrap the classified error with `fmt.Errorf("...: %v", e)`
— `%v`, not `%w` — so the classified sentinel is flattened into a message
string: the error chain for add-order response
`error = ["EAPI:Invalid key"]` is `wrap "placeOrder" (new "failed to place
order: invalid auth")`, whose unwrap chain never reaches `ErrInvalidAuth`
(`errors.Is` is `false`), even though `toError` itself classified
correctly (the flattened text still reads "invalid auth"). -/
theorem placeOrder_flattens_domain_error :
    placeOrder 1 ⟨["EAPI:Invalid key"], [], ""⟩ =
      .ret ("", "") (some (.wrap "placeOrder"
        (.new "failed to place order: invalid auth"))) ∧
    GoError.is
      (.wrap "placeOrder" (.new "failed to place order: invalid auth"))
      .errInvalidAuth = false ∧
    placeOrder 1 ⟨["EGeneral:Invalid arguments:volume minimum not met"], [], ""⟩ =
      .ret ("", "") (some (.wrap "placeOrder"
        (.new "failed to place order: order is too small"))) ∧
    GoError.is
      (.wrap "placeOrder" (.new "failed to place order: order is too small"))
      .errOrderToSmall = false ∧
    (queryOrderInfo "TX" ⟨["EAPI:Invalid key"], []⟩).2 =
      some (.wrap "queryOrderInfo"
        (.new "failed to query order info: invalid auth")) := by
  refine ⟨?_, ?_, ?_, ?_, ?_⟩ <;> with_unfolding_all rfl

/-- C2: refuted — the claim says N ≥ 2 calls to the nonce
generator of one instance return strictly increasing integers.  The stored generator is
the Go method value `time.Now().UnixNano`, whose receiver is evaluated
once at construction, so every call returns the construction-time reading:
any two calls on the same instance are equal, never strictly increasing. -/
theorem GenerateNonce_constant (constructionUnixNano : ℤ) (i j : ℕ) :
    GenerateNonce constructionUnixNano i =
      GenerateNonce constructionUnixNano j := rfl

/-- C3: for every secret key, path, form-parameter set and nonce, the
signature the code computes (`generateSignature`: SHA-256 over decimal
nonce ++ sorted URL encoding, HMAC-SHA512 keyed by the secret over path
bytes ++ digest, standard base64) coincides with the three-step formula of
spec §4.3 (`specSignature`). -/
theorem generateSignature_matches_spec (secretKey path : String)
    (formParams : List (String × String)) (nonce : ℤ) :
    generateSignature secretKey path formParams nonce =
      specSignature secretKey path formParams nonce := rfl

/-- C4: for every ask-price string parsing to a quote `q > 0` and amount
in cents `c > 0`, the fetched buy volume is exactly `(1/q)/100 * c` and is
positive; and at ask price "50000.0" amount 10000 yields `1/500`
(= 0.002 exactly) while amount 500 yields `1/10000` (= 0.0001 exactly). -/
theorem fetchBuyVolume_volume_formula (amountInCents : ℤ) (s : String)
    (q : ℚ) (hs : parseGoFloat s = some q) (hq : 0 < q)
    (hc : 0 < amountInCents) :
    (fetchBuyVolume amountInCents ⟨[], [s]⟩ =
        .ret (1 / q / 100 * (amountInCents : ℚ)) none ∧
      0 < 1 / q / 100 * (amountInCents : ℚ)) ∧
    fetchBuyVolume 10000 ⟨[], ["50000.0"]⟩ = .ret (1 / 500 : ℚ) none ∧
    fetchBuyVolume 500 ⟨[], ["50000.0"]⟩ = .ret (1 / 10000 : ℚ) none := by
  refine ⟨⟨?_, ?_⟩, ?_, ?_⟩
  · simp only [fetchBuyVolume, fetchBuyVolumeBody, hs, deferWrap, WrapErr]
  · have h2 : (0 : ℚ) < (amountInCents : ℚ) := by exact_mod_cast hc
    positivity
  · with_unfolding_all rfl
  · with_unfolding_all rfl

/-- C4 witness: the formula theorem applied at ask price "50000.0" and
10000 cents. -/
theorem fetchBuyVolume_volume_formula_witness :
    (fetchBuyVolume 10000 ⟨[], ["50000.0"]⟩ =
        .ret (1 / (50000 : ℚ) / 100 * ((10000 : ℤ) : ℚ)) none ∧
      0 < 1 / (50000 : ℚ) / 100 * ((10000 : ℤ) : ℚ)) ∧
    fetchBuyVolume 10000 ⟨[], ["50000.0"]⟩ = .ret (1 / 500 : ℚ) none ∧
    fetchBuyVolume 500 ⟨[], ["50000.0"]⟩ = .ret (1 / 10000 : ℚ) none :=
  fetchBuyVolume_volume_formula 10000 "50000.0" 50000
    (by with_unfolding_all rfl) (by norm_num) (by norm_num)

/-- C5 counterexample: the claim says a non-empty ticker error list makes
`fetchBuyVolume` fail with an error derived via the ErrorMapper
classification.  The code wraps `errors.New(error[0])` directly, never
calling `toError`: for the known message "EAPI:Invalid key" the returned
chain bottoms out in an opaque `new "EAPI:Invalid key"`, does not identify
as `ErrInvalidAuth`, even though `toError` would classify it. -/
theorem fetchBuyVolume_bypasses_errorMapper :
    fetchBuyVolume 10000 ⟨["EAPI:Invalid key"], ["50000.0"]⟩ =
      .ret 0 (some (.wrap "fetchBuyVolume"
        (.wrap "failed to fetch buy volume" (.new "EAPI:Invalid key")))) ∧
    GoError.is
      (.wrap "fetchBuyVolume"
        (.wrap "failed to fetch buy volume" (.new "EAPI:Invalid key")))
      .errInvalidAuth = false ∧
    toError "EAPI:Invalid key" = .errInvalidAuth := by
  refine ⟨?_, ?_, ?_⟩ <;> with_unfolding_all rfl

/-- C5 amended: whenever the ticker response carries a non-empty provider
error list, `fetchBuyVolume` fails with the first message wrapped as a
fresh opaque error (`errors.New`), without ErrorMapper classification. -/
theorem fetchBuyVolume_raw_first_message (amountInCents : ℤ) (msg : String)
    (rest a : List String) :
    fetchBuyVolume amountInCents ⟨msg :: rest, a⟩ =
      .ret 0 (some (.wrap "fetchBuyVolume"
        (.wrap "failed to fetch buy volume" (.new msg)))) := rfl

/-- C6 counterexample: the claim says a non-positive resulting volume makes
the pipeline return an error.  With `amountInCents = 0` and ask price
"50000.0" the computed volume is `0`, yet `ExecuteOrder` runs to
completion with a nil error, forwarding the zero volume to order
submission — no branch validates the volume sign. -/
theorem executeOrder_accepts_zero_volume :
    (ExecuteOrder 0 ⟨[], ["50000.0"]⟩ ⟨[], ["TXID1"], "buy market"⟩
      ⟨[], [("TXID1", ⟨"0", "0.00", "0.00", "50000.0"⟩)]⟩).isError = false ∧
    ExecuteOrder 0 ⟨[], ["50000.0"]⟩ ⟨[], ["TXID1"], "buy market"⟩
      ⟨[], [("TXID1", ⟨"0", "0.00", "0.00", "50000.0"⟩)]⟩ =
      .ret ⟨0, "TXID1", "buy market", 0, 0, 0, 0, 50000⟩ none := by
  refine ⟨?_, ?_⟩ <;> with_unfolding_all rfl

/-- C6 amended: an unparsable ask-price string does abort the pipeline
with an error; a non-positive computed volume does not (it is forwarded to
order submission unchecked). -/
theorem executeOrder_unparsable_quote_errors (amountInCents : ℤ)
    (a0 : String) (rest : List String) (addOrder : AddOrderResponse)
    (query : QueryOrdersResponse) (h : parseGoFloat a0 = none) :
    (ExecuteOrder amountInCents ⟨[], a0 :: rest⟩ addOrder query).isError =
      true := by
  simp only [ExecuteOrder, fetchBuyVolume, fetchBuyVolumeBody, h, deferWrap,
    WrapErr, GoExec.isError]

/-- C6 witness: the amended theorem applied to the unparsable ask price
"garbage". -/
theorem executeOrder_unparsable_quote_errors_witness :
    (ExecuteOrder 10000 ⟨[], ["garbage"]⟩ ⟨[], [], ""⟩ ⟨[], []⟩).isError =
      true :=
  executeOrder_unparsable_quote_errors 10000 "garbage" [] ⟨[], [], ""⟩
    ⟨[], []⟩ (by with_unfolding_all rfl)

/-- C7: the classifier maps "EGeneral:Invalid arguments:volume minimum not
met" to the OrderTooSmall sentinel, "EAPI:Invalid key" to the InvalidAuth
sentinel, and every other string `s` to an opaque error carrying `s`. -/
theorem toError_classification (s : String)
    (h1 : s ≠ "EGeneral:Invalid arguments:volume minimum not met")
    (h2 : s ≠ "EAPI:Invalid key") :
    toError "EGeneral:Invalid arguments:volume minimum not met" =
        .errOrderToSmall ∧
    toError "EAPI:Invalid key" = .errInvalidAuth ∧
    toError s = .new s := by
  refine ⟨rfl, rfl, ?_⟩
  simp [toError, h1, h2]

/-- C7 witness: the classifier theorem applied to the string
"anything else". -/
theorem toError_classification_witness :
    toError "EGeneral:Invalid arguments:volume minimum not met" =
        .errOrderToSmall ∧
    toError "EAPI:Invalid key" = .errInvalidAuth ∧
    toError "anything else" = .new "anything else" :=
  toError_classification "anything else" (by decide) (by decide)

/-- C8: refuted in its missing-ask half — the claim says an empty or
absent ask-price array is surfaced as a wrapped error.  The code reads
`response.Result.Xxbtzusd.A[0]` unguarded: on a valid-JSON body with empty
error list and empty ask array it panics with an index-out-of-range
runtime error instead of returning an error (the unparsable-string half
does return a wrapped error, as shown by the second conjunct). -/
theorem fetchBuyVolume_empty_ask_panics :
    fetchBuyVolume 10000 ⟨[], []⟩ =
      .panicked "runtime error: index out of range [0] with length 0" ∧
    fetchBuyVolume 10000 ⟨[], ["bogus"]⟩ =
      .ret 0 (some (.wrap "fetchBuyVolume"
        (.wrap "failed to parse quote" (parseFloatErr "bogus")))) := by
  refine ⟨?_, ?_⟩ <;> with_unfolding_all rfl

/-- C10: when the order-query response has an empty error list and its
result map has no entry for the requested transaction ID, the
empty `fee` string of the zero-value entry fails `strconv.ParseFloat`, so `queryOrderInfo`
returns the named fee-parse error together with a zero `orderInfo` — a
lookup miss surfaces as a numeric parse failure, not a distinct error. -/
theorem queryOrderInfo_missing_txid_fee_parse_error (transactionID : String)
    (result : List (String × QueryOrderEntry))
    (hmiss : result.lookup transactionID = none) :
    queryOrderInfo transactionID ⟨[], result⟩ =
      (zeroOrderInfo,
        some (.wrap "queryOrderInfo"
          (.wrap "failed to parse fee" (parseFloatErr "")))) := by
  simp only [queryOrderInfo, queryOrderInfoBody, hmiss]
  with_unfolding_all rfl

/-- C10 witness: the lookup-miss theorem applied to a transaction ID
absent from an empty result map. -/
theorem queryOrderInfo_missing_txid_fee_parse_error_witness :
    queryOrderInfo "OQXYZT-ABCDE-FGHIJK" ⟨[], []⟩ =
      (zeroOrderInfo,
        some (.wrap "queryOrderInfo"
          (.wrap "failed to parse fee" (parseFloatErr "")))) :=
  queryOrderInfo_missing_txid_fee_parse_error "OQXYZT-ABCDE-FGHIJK" [] rfl

end DCA
